import Mathlib

set_option autoImplicit false

namespace EjtraderDB

/-!
Shallow embedding of the ejtraderDB repository.

The KeyValue Store (`DictSQLite` in `src/ejtraderDB/dict.py`) subclasses
`sqlite_set.SQLiteSet`; the `sqlite_set` module of the repository is not
under `src/`, so the storage primitives it provides (`_insert_into`,
`_update`, `_select`, `_delete`, `_count`) and the codec (`_serializer`)
are modelled from the specification (spec.md §4.1 Storage Core, §4.3
Codec, §4.4, §6, §8).  The methods of `DictSQLite` itself are translated
from `src/ejtraderDB/dict.py`.  The QuestDB REST client
(`src/ejtraderDB/questdb.py`, `src/ejtraderDB/qdb_api.py`) is embedded up
to the point where a network request would be sent: URL construction,
parameter checking, process-exit paths and the cell-casting helper.
-/

/-- Error taxonomy of the core (spec.md §7).  `conflict` embeds
`sqlite3.IntegrityError` (ConflictError), `keyNotFound` embeds `KeyError`
(KeyNotFoundError), `notSupported` embeds `NotImplementedError`
(NotSupportedError), `codec` is CodecError and `storage` is StorageError. -/
inductive Err where
  | conflict : Err
  | keyNotFound : Err
  | notSupported : Err
  | codec : Err
  | storage : Err
deriving DecidableEq, Repr

/-- Values stored by callers of the KeyValue Store: numbers and strings
(spec.md §4.3 requires the codec to round-trip structured caller values;
this embedding carries the two base kinds). -/
inductive Value where
  | vint : Int → Value
  | vstr : String → Value
deriving DecidableEq, Repr

/-- One element of an encoded byte sequence in the codec model. -/
inductive BElem where
  | tag : Nat → BElem
  | int : Int → BElem
  | ch : Char → BElem
deriving DecidableEq, Repr

/-- Opaque byte sequence produced by the codec. -/
abbrev Blob := List BElem

/-- Modelled from the spec: the Codec `encode` (§4.3); the concrete
serializer (`self._serializer`, pickle) lives in the `sqlite_set` module,
which is not under `src/`.  A tagged encoding of the value. -/
def dumps : Value → Blob
  | .vint n => [.tag 0, .int n]
  | .vstr s => .tag 1 :: s.data.map BElem.ch

/-- Character extraction used by the codec decode. -/
def unCh : BElem → Option Char
  | .ch c => some c
  | _ => none

/-- Modelled from the spec: the Codec `decode` (§4.3); malformed bytes
fail with `CodecError`. -/
def loads : Blob → Except Err Value
  | [.tag 0, .int n] => .ok (.vint n)
  | .tag 1 :: rest => .ok (.vstr ⟨rest.filterMap unCh⟩)
  | _ => .error .codec

/-- A map table: rows `(key, data)` in insertion order, as persisted by
the `dict` table of `DictSQLite` (`key TEXT PRIMARY KEY, data BLOB`). -/
abbrev Table := List (String × Blob)

/-- Modelled from the spec: Storage Core `select(table, key)` (§4.1),
the `_select` primitive of the missing `sqlite_set` module; returns the
row whose key column equals `k`, if any. -/
def selectRow (t : Table) (k : String) : Option (String × Blob) :=
  t.find? fun r => r.1 = k

/-- Modelled from the spec: Storage Core `insert` (§4.1), the
`_insert_into` primitive of the missing `sqlite_set` module; fails with
ConflictError when the key already exists (the TEXT PRIMARY KEY of the
map table enforces uniqueness), otherwise appends the new row. -/
def insertInto (t : Table) (k : String) (b : Blob) : Except Err Table :=
  if (selectRow t k).isSome then .error .conflict else .ok (t ++ [(k, b)])

/-- Modelled from the spec: Storage Core `update` (§4.1), the `_update`
primitive of the missing `sqlite_set` module; sets the data column of
every row whose key column equals `k` (at most one, by uniqueness). -/
def updateRow (t : Table) (k : String) (b : Blob) : Table :=
  t.map fun r => if r.1 = k then (k, b) else r

/-- Modelled from the spec: Storage Core `delete` (§4.1) together with
the KeyValue Store contract of §4.4/§8: `delete(k)` on an absent key
fails with KeyNotFoundError; on a present key it removes the record. -/
def deleteRow (t : Table) (k : String) : Except Err Table :=
  if (selectRow t k).isSome then .ok (t.filter fun r => ¬ r.1 = k)
  else .error .keyNotFound

/-- Modelled from the spec: Storage Core `count` (§4.1), the `_count`
primitive of the missing `sqlite_set` module. -/
def countRows (t : Table) : Nat :=
  t.length

/-- The `try ... except sqlite3.IntegrityError: ...` statement wrapping
the insert in `DictSQLite.__setitem__` (dict.py lines 53 to 56): a
ConflictError from the attempt runs the handler; any other outcome of
the attempt, success or a different error, is returned unmodified. -/
def catchConflict (attempt : Except Err Table) (handler : Unit → Except Err Table) :
    Except Err Table :=
  match attempt with
  | .error .conflict => handler ()
  | other => other

/-- `DictSQLite.__setitem__` (dict.py lines 51 to 56): encode the value,
attempt the insert, and on an integrity conflict update instead. -/
def setitem (t : Table) (k : String) (v : Value) : Except Err Table :=
  let obj := dumps v
  catchConflict (insertInto t k obj) fun _ => .ok (updateRow t k obj)

/-- `DictSQLite.__getitem__` (dict.py lines 58 to 63): select the row,
decode its data if present, otherwise fail with KeyNotFoundError. -/
def getitem (t : Table) (k : String) : Except Err Value :=
  match selectRow t k with
  | some row => loads row.2
  | none => .error .keyNotFound

/-- `DictSQLite.__contains__` (dict.py lines 47 to 49). -/
def containsKey (t : Table) (k : String) : Bool :=
  (selectRow t k).isSome

/-- `DictSQLite.__delitem__` (dict.py lines 65 to 66), delegating to the
storage delete primitive. -/
def delitem (t : Table) (k : String) : Except Err Table :=
  deleteRow t k

/-- `DictSQLite.__len__` (dict.py lines 68 to 69). -/
def lenDict (t : Table) : Nat :=
  countRows t

/-- `DictSQLite.__iter__` (dict.py lines 26 to 27): always fails with
NotSupportedError. -/
def iterDict (_t : Table) : Except Err (List String) :=
  .error .notSupported

/-- `DictSQLite.keys` (dict.py lines 29 to 30). -/
def keysDict (_t : Table) : Except Err (List String) :=
  .error .notSupported

/-- `DictSQLite.iterkeys` (dict.py lines 32 to 33). -/
def iterkeysDict (_t : Table) : Except Err (List String) :=
  .error .notSupported

/-- `DictSQLite.values` (dict.py lines 35 to 36). -/
def valuesDict (_t : Table) : Except Err (List Value) :=
  .error .notSupported

/-- `DictSQLite.itervalues` (dict.py lines 38 to 39). -/
def itervaluesDict (_t : Table) : Except Err (List Value) :=
  .error .notSupported

/-- `DictSQLite.iteritems` (dict.py lines 41 to 42). -/
def iteritemsDict (_t : Table) : Except Err (List (String × Value)) :=
  .error .notSupported

/-- `DictSQLite.items` (dict.py lines 44 to 45). -/
def itemsDict (_t : Table) : Except Err (List (String × Value)) :=
  .error .notSupported

/-! Helper lemmas for the KeyValue Store. -/

theorem filterMap_unCh_map_ch (l : List Char) :
    (l.map BElem.ch).filterMap unCh = l := by
  induction l with
  | nil => rfl
  | cons c cs ih => simp [List.filterMap_cons, unCh, ih]

theorem loads_dumps (v : Value) : loads (dumps v) = .ok v := by
  cases v with
  | vint n => rfl
  | vstr s =>
    show loads (.tag 1 :: s.data.map BElem.ch) = .ok (.vstr s)
    simp only [loads, filterMap_unCh_map_ch]

theorem selectRow_eq_none_of_not_contains (t : Table) (k : String)
    (h : containsKey t k = false) : selectRow t k = none := by
  cases hsel : selectRow t k with
  | none => rfl
  | some r => simp [containsKey, hsel] at h

theorem selectRow_append_absent (t : Table) (k : String) (b : Blob)
    (h : containsKey t k = false) : selectRow (t ++ [(k, b)]) k = some (k, b) := by
  have hn : selectRow t k = none := selectRow_eq_none_of_not_contains t k h
  simp only [selectRow] at hn ⊢
  rw [List.find?_append, hn]
  simp

theorem selectRow_update_present (t : Table) (k : String) (b : Blob)
    (h : containsKey t k = true) : selectRow (updateRow t k b) k = some (k, b) := by
  induction t with
  | nil => simp [containsKey, selectRow] at h
  | cons r rest ih =>
    by_cases hk : r.1 = k
    · simp [updateRow, selectRow, hk]
    · have hrest : containsKey rest k = true := by
        simpa [containsKey, selectRow, hk] using h
      have := ih hrest
      simpa [updateRow, selectRow, hk] using this

theorem selectRow_filter_out (t : Table) (k : String) :
    selectRow (t.filter fun r => !decide (r.1 = k)) k = none := by
  induction t with
  | nil => rfl
  | cons r rest ih =>
    by_cases hk : r.1 = k
    · simpa [List.filter_cons, hk] using ih
    · simp only [List.filter_cons, hk, decide_False, Bool.not_false, if_true]
      simp [selectRow, hk]

theorem length_updateRow (t : Table) (k : String) (b : Blob) :
    (updateRow t k b).length = t.length := by
  simp [updateRow]

theorem setitem_eq (t : Table) (k : String) (v : Value) :
    setitem t k v =
      if containsKey t k then .ok (updateRow t k (dumps v))
      else .ok (t ++ [(k, dumps v)]) := by
  by_cases h : containsKey t k = true
  · simp [setitem, insertInto, catchConflict, containsKey] at h ⊢
    simp [h]
  · simp only [Bool.not_eq_true] at h
    simp [setitem, insertInto, catchConflict, containsKey] at h ⊢
    simp [h]

theorem containsKey_after_setitem (t t' : Table) (k : String) (v : Value)
    (h : setitem t k v = .ok t') : containsKey t' k = true := by
  rw [setitem_eq] at h
  by_cases hc : containsKey t k = true
  · rw [if_pos hc] at h
    injection h with h
    subst h
    simp [containsKey, selectRow_update_present t k (dumps v) hc]
  · rw [if_neg hc] at h
    injection h with h
    subst h
    simp only [Bool.not_eq_true] at hc
    simp [containsKey, selectRow_append_absent t k (dumps v) hc]

/-! Claim theorems for the KeyValue Store. -/

/-- C1: `set(key, value)` encodes the value, first attempts an insert and
only on a uniqueness-conflict error performs an update of the existing
record instead (upsert, last-writer-wins); the conflict error is consumed
internally and never reaches the caller, while every other outcome of the
attempted insert, success or a different error, is returned unmodified by
the `try/except sqlite3.IntegrityError` wrapper. -/
theorem upsert_protocol (t : Table) (k : String) (v : Value) :
    (containsKey t k = false →
      insertInto t k (dumps v) = .ok (t ++ [(k, dumps v)]) ∧
      setitem t k v = insertInto t k (dumps v)) ∧
    (containsKey t k = true →
      insertInto t k (dumps v) = .error .conflict ∧
      setitem t k v = .ok (updateRow t k (dumps v))) ∧
    (∀ e : Err, ∀ handler : Unit → Except Err Table, e ≠ .conflict →
      catchConflict (.error e) handler = .error e) ∧
    (∀ t' : Table, ∀ handler : Unit → Except Err Table,
      catchConflict (.ok t') handler = .ok t') := by
  refine ⟨?_, ?_, ?_, ?_⟩
  · intro h
    have hf : (selectRow t k).isSome = false := h
    constructor
    · simp [insertInto, hf]
    · rw [setitem_eq, if_neg (by simp [containsKey, hf])]
      simp [insertInto, hf]
  · intro h
    have ht : (selectRow t k).isSome = true := h
    constructor
    · simp [insertInto, ht]
    · rw [setitem_eq, if_pos h]
  · intro e handler he
    cases e with
    | conflict => exact absurd rfl he
    | keyNotFound => rfl
    | notSupported => rfl
    | codec => rfl
    | storage => rfl
  · intro t' handler
    rfl

/-- C1 witness: on an empty store the set goes through the insert; on a
store already holding the key the insert conflicts; a storage error is
passed through the conflict handler unmodified. -/
theorem upsert_protocol_witness :
    setitem [] "a" (.vint 1) = insertInto [] "a" (dumps (.vint 1)) ∧
    insertInto [("a", dumps (.vint 0))] "a" (dumps (.vint 1)) = .error .conflict ∧
    catchConflict (.error .storage) (fun _ => .ok []) = .error .storage :=
  ⟨((upsert_protocol [] "a" (.vint 1)).1 (by decide)).2,
   ((upsert_protocol [("a", dumps (.vint 0))] "a" (.vint 1)).2.1 (by decide)).1,
   (upsert_protocol [] "a" (.vint 1)).2.2.1 .storage (fun _ => .ok []) (by decide)⟩

/-- C2: for all keys k and values v, immediately after `set(k, v)` the
lookup `get(k)` returns a value equal to v (the stored payload decodes
back to what was written) and `contains(k)` returns true. -/
theorem set_then_get (t : Table) (k : String) (v : Value) :
    ∃ t', setitem t k v = .ok t' ∧ getitem t' k = .ok v ∧
      containsKey t' k = true := by
  rw [setitem_eq]
  by_cases hc : containsKey t k = true
  · refine ⟨updateRow t k (dumps v), by rw [if_pos hc], ?_, ?_⟩
    · simp [getitem, selectRow_update_present t k (dumps v) hc, loads_dumps]
    · simp [containsKey, selectRow_update_present t k (dumps v) hc]
  · refine ⟨t ++ [(k, dumps v)], by rw [if_neg hc], ?_, ?_⟩
    · simp only [Bool.not_eq_true] at hc
      simp [getitem, selectRow_append_absent t k (dumps v) hc, loads_dumps]
    · simp only [Bool.not_eq_true] at hc
      simp [containsKey, selectRow_append_absent t k (dumps v) hc]

/-- C3: `set(k, v1); set(k, v2)` leaves `get(k) == v2` and leaves the
record count unchanged across the second set call: the second write
overwrites in place and creates no duplicate record. -/
theorem set_set_last_wins (t t1 t2 : Table) (k : String) (v1 v2 : Value)
    (h1 : setitem t k v1 = .ok t1) (h2 : setitem t1 k v2 = .ok t2) :
    getitem t2 k = .ok v2 ∧ lenDict t2 = lenDict t1 := by
  have hc1 : containsKey t1 k = true := containsKey_after_setitem t t1 k v1 h1
  rw [setitem_eq, if_pos hc1] at h2
  injection h2 with h2
  subst h2
  refine ⟨?_, ?_⟩
  · simp [getitem, selectRow_update_present t1 k (dumps v2) hc1, loads_dumps]
  · simp [lenDict, countRows, length_updateRow]

/-- C3 witness: writing twice to the same key on an empty store. -/
theorem set_set_last_wins_witness :
    getitem [("a", dumps (.vint 2))] "a" = .ok (.vint 2) ∧
    lenDict [("a", dumps (.vint 2))] = lenDict [("a", dumps (.vint 1))] := by
  have h := set_set_last_wins [] [("a", dumps (.vint 1))] [("a", dumps (.vint 2))]
    "a" (.vint 1) (.vint 2) (by rfl) (by rfl)
  simpa [updateRow] using h

/-- C4: every enumeration operation of the KeyValue Store (`keys`,
`values`, `items`, `iterkeys`, `itervalues`, `iteritems` and iteration
via `__iter__`) fails with NotSupportedError on every store state, and
never returns a result. -/
theorem enumeration_unsupported (t : Table) :
    iterDict t = .error .notSupported ∧
    keysDict t = .error .notSupported ∧
    iterkeysDict t = .error .notSupported ∧
    valuesDict t = .error .notSupported ∧
    itervaluesDict t = .error .notSupported ∧
    iteritemsDict t = .error .notSupported ∧
    itemsDict t = .error .notSupported :=
  ⟨rfl, rfl, rfl, rfl, rfl, rfl, rfl⟩

/-- C5: `delete(k)` on an absent key fails with KeyNotFoundError, and
after a successful `delete(k)` on a present key, `contains(k)` is false. -/
theorem delete_contract (t : Table) (k : String) :
    (containsKey t k = false → delitem t k = .error .keyNotFound) ∧
    (∀ t', delitem t k = .ok t' → containsKey t' k = false) := by
  constructor
  · intro h
    have hf : (selectRow t k).isSome = false := h
    simp [delitem, deleteRow, hf]
  · intro t' h
    by_cases hc : (selectRow t k).isSome = true
    · simp only [delitem, deleteRow, if_pos hc] at h
      injection h with h
      subst h
      simp [containsKey, selectRow_filter_out]
    · simp only [delitem, deleteRow, if_neg hc] at h
      exact absurd h (by simp)

/-- C5 witness: deleting from an empty store fails with
KeyNotFoundError; deleting the present key leaves the key absent. -/
theorem delete_contract_witness :
    delitem [] "a" = .error .keyNotFound ∧
    containsKey [] "a" = false :=
  ⟨(delete_contract [] "a").1 (by decide),
   (delete_contract [("a", dumps (.vint 1))] "a").2 [] (by rfl)⟩

/-- C6: `get(k)` on a key that is not present fails with
KeyNotFoundError; it neither returns a default nor succeeds. -/
theorem get_absent_fails (t : Table) (k : String)
    (h : containsKey t k = false) : getitem t k = .error .keyNotFound := by
  have hn : selectRow t k = none := selectRow_eq_none_of_not_contains t k h
  simp [getitem, hn]

/-- C6 witness: lookup of a key on the empty store. -/
theorem get_absent_fails_witness :
    getitem [] "missing" = .error .keyNotFound :=
  get_absent_fails [] "missing" (by decide)

/-! Schema of the map table (claim C7). -/

/-- The `_SQL_CREATE` template of `DictSQLite` (dict.py lines 13 to 14)
rendered with Python `str.format` on the configured table name and key
column. -/
def sqlCreate (tableName keyColumn : String) : String :=
  "CREATE TABLE IF NOT EXISTS " ++ tableName ++ " (" ++ keyColumn ++
    " TEXT PRIMARY KEY, data BLOB)"

/-- The create statement of the dict store: `_TABLE_NAME` is `dict` and
`_KEY_COLUMN` is `key` (dict.py lines 11 to 12). -/
def dictSqlCreate : String :=
  sqlCreate "dict" "key"

/-- A column of a relational table: name, declared type, and whether it
carries the PRIMARY KEY constraint. -/
structure Column where
  name : String
  dtype : String
  primaryKey : Bool
deriving DecidableEq, Repr

/-- The columns declared by `_SQL_CREATE`: the key column with type TEXT
and the PRIMARY KEY constraint, and the payload column, named `data`,
with type BLOB. -/
def dictColumns (keyColumn : String) : List Column :=
  [⟨keyColumn, "TEXT", true⟩, ⟨"data", "BLOB", false⟩]

/-- Modelled from the spec: schema creation runs on every open and is
idempotent (spec.md §3, §6); the create statement is issued by the
missing `sqlite_set` module on open, and its `CREATE TABLE IF NOT
EXISTS` form creates the table only when it is absent, leaving an
existing table untouched. -/
def ensureSchema (db : Option (List Column)) (cols : List Column) :
    Option (List Column) :=
  some (db.getD cols)

/-- C7: the map store's backing table is created by exactly the rendered
statement `CREATE TABLE IF NOT EXISTS dict (key TEXT PRIMARY KEY, data
BLOB)`, two columns with the key column TEXT PRIMARY KEY and a BLOB
payload column, so key uniqueness is schema-enforced (a duplicate insert
fails with ConflictError); schema creation is idempotent: ensuring the
schema twice leaves the same schema as ensuring it once, an existing
table is kept and a missing one is created. -/
theorem schema_layout_idempotent :
    dictSqlCreate =
      "CREATE TABLE IF NOT EXISTS dict (key TEXT PRIMARY KEY, data BLOB)" ∧
    dictColumns "key" = [⟨"key", "TEXT", true⟩, ⟨"data", "BLOB", false⟩] ∧
    (∀ db cols, ensureSchema (ensureSchema db cols) cols = ensureSchema db cols) ∧
    (∀ existing cols, ensureSchema (some existing) cols = some existing) ∧
    (∀ cols, ensureSchema none cols = some cols) ∧
    (∀ t k b, containsKey t k = true → insertInto t k b = .error .conflict) := by
  refine ⟨by rfl, by rfl, ?_, ?_, ?_, ?_⟩
  · intro db cols
    cases db <;> rfl
  · intro existing cols
    rfl
  · intro cols
    rfl
  · intro t k b h
    have ht : (selectRow t k).isSome = true := h
    simp [insertInto, ht]

/-- C7 witness: inserting a key that is already present conflicts. -/
theorem schema_layout_idempotent_witness :
    insertInto [("a", dumps (.vint 1))] "a" (dumps (.vint 2)) = .error .conflict :=
  schema_layout_idempotent.2.2.2.2.2 [("a", dumps (.vint 1))] "a"
    (dumps (.vint 2)) (by decide)

/-!
The QuestDB REST client (`src/ejtraderDB/questdb.py` with its static
parameter tables in `src/ejtraderDB/qdb_api.py`).  The embedding stops
where the `requests` session would send the request: it covers the
request URL construction, the parameter checks, the process-exit error
paths and the cell casting of the pandas export.
-/

/-- Python values passed as request parameters: int, bool or str. -/
inductive PVal where
  | pint : Int → PVal
  | pbool : Bool → PVal
  | pstr : String → PVal
deriving DecidableEq, Repr

/-- Python runtime types, for the exact `type(value) == ptype` comparison
in `QuestDB._check` (questdb.py line 296); in Python, `type` of a bool is
`bool`, never `int`. -/
inductive PType where
  | tint : PType
  | tbool : PType
  | tstr : PType
deriving DecidableEq, Repr

/-- The runtime type of a parameter value. -/
def PVal.typeOf : PVal → PType
  | .pint _ => .tint
  | .pbool _ => .tbool
  | .pstr _ => .tstr

/-- Python `str()` of a parameter value, as interpolated into the URL by
the f-string `f"{k}={v}&"` (questdb.py lines 99, 153, 196); booleans
print capitalized. -/
def PVal.render : PVal → String
  | .pint n => toString n
  | .pbool b => if b then "True" else "False"
  | .pstr s => s

/-- One parameter entry of the `API` table (qdb_api.py): the `required`
flag, the `default` value, the `check` predicate and the `type` entry. -/
structure ParamSpec where
  required : Bool
  default : PVal
  check : PVal → Bool
  ptype : PType

/-- Result of a client call: either a value, or a `sys.exit` with the
given status code terminating the interpreter (questdb.py lines 91, 262,
293); no exception a caller could handle is raised on these paths. -/
inductive Outcome (α : Type) where
  | ok : α → Outcome α
  | exit : Nat → Outcome α
deriving DecidableEq, Repr

/-- `QuestDB._check` (questdb.py lines 277 to 296): a mandatory parameter
whose value equals its default prints a message and calls `sys.exit(1)`;
otherwise the result is the validity predicate conjoined with the exact
runtime-type comparison.  The restricted-character scan of line 295 only
prints and changes nothing. -/
def checkParam (spec : ParamSpec) (v : PVal) : Outcome Bool :=
  if spec.required && decide (v = spec.default) then .exit 1
  else .ok (spec.check v && decide (v.typeOf = spec.ptype))

/-- `QuestDB.help` (questdb.py lines 250 to 262): prints the parameter
description, or a fallback message when the lookup fails, and always
calls `sys.exit(1)`. -/
def helpRoute (α : Type) : Outcome α :=
  .exit 1

/-- `QuestDB._not_compliant` (questdb.py lines 239 to 248): prints the
error message and delegates to `help`, which exits. -/
def notCompliant (α : Type) : Outcome α :=
  helpRoute α

/-- The parameter loop shared by `imp`, `exec` and `exp` (questdb.py
lines 93 to 99, 147 to 153, 190 to 196): for each structured parameter,
run `_check`; a failing check reaches `_not_compliant` and exits; a
passing parameter is appended to the URL as `k=v&` only when its value
differs from its configured default. -/
def buildParams (acc : String) : List (String × ParamSpec × PVal) → Outcome String
  | [] => .ok acc
  | (k, spec, v) :: rest =>
    match checkParam spec v with
    | .exit n => .exit n
    | .ok valid =>
      if !valid then notCompliant String
      else buildParams
        (if v ≠ spec.default then acc ++ k ++ "=" ++ v.render ++ "&" else acc) rest

/-- Python `url.endswith("&")` over the character contents. -/
def endsAmp (s : String) : Bool :=
  s.data.getLast? = some '&'

/-- Python `url[:-1]`. -/
def dropLast1 (s : String) : String :=
  ⟨s.data.dropLast⟩

/-- The trailing-separator strip ending each builder (questdb.py lines
100 to 101, 154 to 155, 197 to 198). -/
def stripAmp (s : String) : String :=
  if endsAmp s then dropLast1 s else s

/-- Application of the final strip to the outcome of the parameter loop. -/
def finishUrl : Outcome String → Outcome String
  | .ok u => .ok (stripAmp u)
  | .exit n => .exit n

/-- `QuestDB.exec` URL construction (questdb.py lines 135 to 155): the
base URL plus `/exec?`, the parameter loop, then the trailing strip; the
structured parameters are taken as input (the caller-side dict already
holds `quote_plus(query)` for the query entry). -/
def execUrl (baseUrl : String) (ps : List (String × ParamSpec × PVal)) :
    Outcome String :=
  finishUrl (buildParams (baseUrl ++ "/exec?") ps)

/-- `QuestDB.exp` URL construction (questdb.py lines 181 to 198), like
`exec` with base `/exp?`. -/
def expUrl (baseUrl : String) (ps : List (String × ParamSpec × PVal)) :
    Outcome String :=
  finishUrl (buildParams (baseUrl ++ "/exp?") ps)

/-- `QuestDB.imp` URL construction (questdb.py lines 70 to 101): the
file-existence gate of lines 88 to 91 runs before the parameter loop and
exits the interpreter when the input file is missing. -/
def impUrl (baseUrl : String) (fileExists : Bool) (ps : List (String × ParamSpec × PVal)) :
    Outcome String :=
  if !fileExists then .exit 1
  else finishUrl (buildParams (baseUrl ++ "/imp?") ps)

/-! Specification-side description of the built URL, compared against the
builder in claim C8: the parameters whose value differs from the default,
rendered as `k=v` and joined with single `&` separators. -/

/-- The parameters kept in the URL: exactly those whose value differs
from the configured default. -/
def keptParams (ps : List (String × ParamSpec × PVal)) :
    List (String × ParamSpec × PVal) :=
  ps.filter fun p => p.2.2 ≠ p.2.1.default

/-- The query-string chunk of one parameter. -/
def chunkOf (p : String × ParamSpec × PVal) : String :=
  p.1 ++ "=" ++ p.2.2.render

/-- Chunks joined with single `&` separators and no trailing separator. -/
def joinAmp : List String → String
  | [] => ""
  | [c] => c
  | c :: rest => c ++ "&" ++ joinAmp rest

/-- The raw text appended by the loop: each kept chunk followed by `&`. -/
def ampJoin : List (String × ParamSpec × PVal) → String
  | [] => ""
  | p :: rest =>
      (if p.2.2 ≠ p.2.1.default then chunkOf p ++ "&" else "") ++ ampJoin rest

theorem buildParams_ok (acc : String) (ps : List (String × ParamSpec × PVal))
    (h : ∀ p ∈ ps, checkParam p.2.1 p.2.2 = .ok true) :
    buildParams acc ps = .ok (acc ++ ampJoin ps) := by
  induction ps generalizing acc with
  | nil => simp [buildParams, ampJoin]
  | cons p rest ih =>
    obtain ⟨k, spec, v⟩ := p
    have hhead : checkParam spec v = .ok true := h _ (List.mem_cons_self _ _)
    have htail : ∀ p ∈ rest, checkParam p.2.1 p.2.2 = .ok true :=
      fun p hp => h p (List.mem_cons_of_mem _ hp)
    rw [buildParams, hhead]
    simp only [Bool.not_true, if_false, Bool.false_eq_true]
    by_cases hd : v = spec.default
    · simp only [hd, ne_eq, not_true_eq_false, if_false]
      rw [ih _ htail]
      simp [ampJoin, hd]
    · simp only [ne_eq, hd, not_false_eq_true, if_true]
      rw [ih _ htail]
      simp [ampJoin, chunkOf, hd, String.append_assoc]

theorem ampJoin_eq (ps : List (String × ParamSpec × PVal)) :
    (keptParams ps = [] ∧ ampJoin ps = "") ∨
    (keptParams ps ≠ [] ∧
      ampJoin ps = joinAmp ((keptParams ps).map chunkOf) ++ "&") := by
  induction ps with
  | nil => exact Or.inl ⟨rfl, rfl⟩
  | cons p rest ih =>
    by_cases hd : p.2.2 = p.2.1.default
    · have hkept : keptParams (p :: rest) = keptParams rest := by
        simp [keptParams, List.filter_cons, hd]
      have hjoin : ampJoin (p :: rest) = ampJoin rest := by
        simp [ampJoin, hd]
      rw [hkept, hjoin]
      exact ih
    · have hkept : keptParams (p :: rest) = p :: keptParams rest := by
        simp [keptParams, List.filter_cons, hd]
      rcases ih with ⟨hk, he⟩ | ⟨hk, he⟩
      · refine Or.inr ⟨by simp [hkept], ?_⟩
        rw [hkept, hk]
        simp [ampJoin, joinAmp, hd, he]
      · refine Or.inr ⟨by simp [hkept], ?_⟩
        rw [hkept]
        rcases hq : keptParams rest with _ | ⟨q, qs⟩
        · exact absurd hq hk
        · rw [hq] at he
          simp only [List.map_cons, joinAmp, ampJoin, hd, if_true, he,
            String.append_assoc, ne_eq, not_false_eq_true]

theorem stripAmp_of_no_amp (s : String) (h : endsAmp s = false) :
    stripAmp s = s := by
  simp [stripAmp, h]

theorem stripAmp_concat (x : String) : stripAmp (x ++ "&") = x := by
  have hd : ("&" : String).data = ['&'] := rfl
  have h1 : endsAmp (x ++ "&") = true := by
    simp [endsAmp, String.data_append, hd, List.getLast?_concat]
  have h2 : dropLast1 (x ++ "&") = x := by
    apply String.ext
    simp [dropLast1, String.data_append, hd, List.dropLast_concat]
  simp [stripAmp, h1, h2]

theorem endsAmp_append_of_last (b q : String) (c : Char)
    (hq : q.data.getLast? = some c) (hc : ¬ c = '&') :
    endsAmp (b ++ q) = false := by
  simp [endsAmp, String.data_append, List.getLast?_append, hq, hc]

theorem finish_build (b : String) (ps : List (String × ParamSpec × PVal))
    (hb : endsAmp b = false)
    (h : ∀ p ∈ ps, checkParam p.2.1 p.2.2 = .ok true) :
    finishUrl (buildParams b ps) =
      .ok (if (keptParams ps).isEmpty then b
           else b ++ joinAmp ((keptParams ps).map chunkOf)) := by
  rw [buildParams_ok b ps h]
  show Outcome.ok (stripAmp (b ++ ampJoin ps)) = _
  rcases ampJoin_eq ps with ⟨hk, he⟩ | ⟨hk, he⟩
  · rw [he, hk, String.append_empty, stripAmp_of_no_amp b hb]
    simp
  · have hke : (keptParams ps).isEmpty = false := by
      rcases hq : keptParams ps with _ | ⟨q, qs⟩
      · exact absurd hq hk
      · rfl
    rw [he, ← String.append_assoc, stripAmp_concat, hke]
    simp

/-! Concrete entries of the `API` table (`src/ejtraderDB/qdb_api.py`). -/

/-- `API["imp"]["atomicity"]` (qdb_api.py lines 17 to 23).  The Python
membership test `x in [0, 1, 2]` is also satisfied by boolean values,
because Python compares `True == 1` and `False == 0` as equal; the exact
runtime-type comparison in `_check` is what rejects booleans. -/
def atomicitySpec : ParamSpec where
  required := false
  default := .pint 2
  check := fun v =>
    match v with
    | .pint n => n == 0 || n == 1 || n == 2
    | .pbool _ => true
    | .pstr _ => false
  ptype := .tint

/-- `API["imp"]["fmt"]` (qdb_api.py lines 38 to 44). -/
def fmtSpec : ParamSpec where
  required := false
  default := .pstr "tabular"
  check := fun v =>
    match v with
    | .pstr s => s == "tabular" || s == "json"
    | _ => false
  ptype := .tstr

/-- `API["exec"]["count"]` (qdb_api.py lines 97 to 103): the check is
the type test `type(x) == bool`. -/
def countSpec : ParamSpec where
  required := false
  default := .pbool false
  check := fun v => v.typeOf == .tbool
  ptype := .tbool

/-- The regex of the `limit` checks (qdb_api.py lines 107 and 138),
anchored at both ends, as a recognizer: one or more digits, an optional
comma, then zero or more digits. -/
def limitMatch (s : String) : Bool :=
  let d1 := s.data.takeWhile Char.isDigit
  let rest := s.data.drop d1.length
  !d1.isEmpty &&
    match rest with
    | [] => true
    | ',' :: r => r.all Char.isDigit
    | _ => false

/-- `API["exec"]["limit"]` and `API["exp"]["limit"]` (qdb_api.py lines
104 to 110 and 135 to 141). -/
def limitSpec : ParamSpec where
  required := false
  default := .pstr "10"
  check := fun v =>
    match v with
    | .pstr s => limitMatch s
    | _ => false
  ptype := .tstr

/-- `API["exec"]["query"]` and `API["exp"]["query"]` (qdb_api.py lines
118 to 124 and 142 to 148): mandatory with empty default; the validity
check calls the external `sqlvalidator` package, taken here as the
parameter `sqlValid`. -/
def querySpec (sqlValid : String → Bool) : ParamSpec where
  required := true
  default := .pstr ""
  check := fun v =>
    match v with
    | .pstr s => sqlValid s
    | _ => false
  ptype := .tstr

/-- `API["exp"]["format"]` (qdb_api.py lines 149 to 155). -/
def formatSpec : ParamSpec where
  required := false
  default := .pstr "csv"
  check := fun v =>
    match v with
    | .pstr s => s == "csv" || s == "pandas"
    | _ => false
  ptype := .tstr

/-- C8: in every request builder (imp, exec, exp), when each structured
parameter passes its `_check`, a parameter whose value equals its
configured API default is omitted from the request URL entirely; only
the parameters differing from their defaults are appended as `k=v`
query-string chunks joined by single `&` separators, and the trailing
`&` is stripped, leaving the bare `...?` URL when nothing is appended. -/
theorem default_params_omitted (baseUrl : String)
    (ps : List (String × ParamSpec × PVal))
    (h : ∀ p ∈ ps, checkParam p.2.1 p.2.2 = .ok true) :
    execUrl baseUrl ps =
      .ok (if (keptParams ps).isEmpty then baseUrl ++ "/exec?"
           else baseUrl ++ "/exec?" ++ joinAmp ((keptParams ps).map chunkOf)) ∧
    expUrl baseUrl ps =
      .ok (if (keptParams ps).isEmpty then baseUrl ++ "/exp?"
           else baseUrl ++ "/exp?" ++ joinAmp ((keptParams ps).map chunkOf)) ∧
    impUrl baseUrl true ps =
      .ok (if (keptParams ps).isEmpty then baseUrl ++ "/imp?"
           else baseUrl ++ "/imp?" ++ joinAmp ((keptParams ps).map chunkOf)) := by
  refine ⟨?_, ?_, ?_⟩
  · exact finish_build _ ps
      (endsAmp_append_of_last baseUrl "/exec?" '?' rfl (by decide)) h
  · exact finish_build _ ps
      (endsAmp_append_of_last baseUrl "/exp?" '?' rfl (by decide)) h
  · show finishUrl (buildParams (baseUrl ++ "/imp?") ps) = _
    exact finish_build _ ps
      (endsAmp_append_of_last baseUrl "/imp?" '?' rfl (by decide)) h

/-- C8 witness: with `count=True` differing from its default and `limit`
left at its default of 10, the exec URL keeps only `count=True` and ends
without a separator. -/
theorem default_params_omitted_witness :
    execUrl "http://127.0.0.1:9000"
      [("count", countSpec, .pbool true), ("limit", limitSpec, .pstr "10")] =
      .ok "http://127.0.0.1:9000/exec?count=True" :=
  ((default_params_omitted "http://127.0.0.1:9000"
      [("count", countSpec, .pbool true), ("limit", limitSpec, .pstr "10")]
      (by decide)).1).trans (by decide)

/-- C9: every error path of the client terminates the process with
`sys.exit(1)` instead of raising an exception the caller could handle:
`_check` on a mandatory parameter left at its default prints and exits
with status 1; a parameter value failing its validity check leads
through `_not_compliant` and `help` to an exit with status 1 inside the
parameter loop; and `imp` with a nonexistent input file prints and exits
with status 1 before any request is built. -/
theorem error_paths_exit (spec : ParamSpec) (k : String) (v : PVal)
    (rest : List (String × ParamSpec × PVal)) (acc : String) :
    (spec.required = true → checkParam spec spec.default = .exit 1) ∧
    (checkParam spec v = .ok false →
      buildParams acc ((k, spec, v) :: rest) = .exit 1) ∧
    (∀ baseUrl ps, impUrl baseUrl false ps = .exit 1) ∧
    (∀ α, helpRoute α = .exit 1 ∧ notCompliant α = .exit 1) := by
  refine ⟨?_, ?_, ?_, ?_⟩
  · intro hreq
    simp [checkParam, hreq]
  · intro hchk
    simp only [buildParams, hchk]
    rfl
  · intro baseUrl ps
    rfl
  · intro α
    exact ⟨rfl, rfl⟩

/-- C9 witness: `exec` without a query leaves the mandatory `query`
parameter at its empty default and `_check` exits with status 1; an
`atomicity` value of 5 fails the membership check and the loop exits
with status 1; `imp` on a missing file exits with status 1. -/
theorem error_paths_exit_witness :
    checkParam (querySpec fun _ => true) (.pstr "") = .exit 1 ∧
    buildParams "http://127.0.0.1:9000/imp?"
      [("atomicity", atomicitySpec, .pint 5)] = .exit 1 ∧
    impUrl "http://127.0.0.1:9000" false [] = .exit 1 :=
  ⟨(error_paths_exit (querySpec fun _ => true) "query" (.pstr "") [] "").1 rfl,
   (error_paths_exit atomicitySpec "atomicity" (.pint 5) []
      "http://127.0.0.1:9000/imp?").2.1 (by decide),
   (error_paths_exit atomicitySpec "x" (.pint 0) [] "").2.2.1
      "http://127.0.0.1:9000" []⟩

/-!
`QuestDB._assign_vartype` (questdb.py lines 223 to 237) tries the
constructors `float`, `int`, `str` in order on a cell string and
returns the first cast that succeeds.  The acceptance of a string by
the CPython `float` and `int` constructors is modelled by recognizers
over the character list (decimal literals; underscores, surrounding
whitespace and the inf/nan spellings are not modelled, which does not
affect which constructor succeeds first on the modelled strings).
-/

/-- One or more decimal digits. -/
def digits1 (l : List Char) : Bool :=
  !l.isEmpty && l.all Char.isDigit

/-- The optional leading sign accepted by both constructors. -/
def stripSign : List Char → List Char
  | '+' :: r => r
  | '-' :: r => r
  | r => r

/-- A signed digit run, as in the exponent of a float literal. -/
def signedDigits (l : List Char) : Bool :=
  digits1 (stripSign l)

/-- The optional exponent ending a float literal. -/
def expPart : List Char → Bool
  | [] => true
  | 'e' :: r => signedDigits r
  | 'E' :: r => signedDigits r
  | _ => false

/-- The rest of a float literal after the leading digit run; the flag
says whether that leading run was nonempty. -/
def floatTail : List Char → Bool → Bool
  | [], hasInt => hasInt
  | '.' :: r2, hasInt =>
      (hasInt || !(r2.takeWhile Char.isDigit).isEmpty) &&
        expPart (r2.drop (r2.takeWhile Char.isDigit).length)
  | 'e' :: r2, hasInt => hasInt && signedDigits r2
  | 'E' :: r2, hasInt => hasInt && signedDigits r2
  | _, _ => false

/-- An unsigned float literal body. -/
def floatBody (l : List Char) : Bool :=
  floatTail (l.drop (l.takeWhile Char.isDigit).length)
    (!(l.takeWhile Char.isDigit).isEmpty)

/-- Acceptance of a string by the Python `int` constructor: optional
sign, then one or more digits. -/
def pyIntOk (s : String) : Bool :=
  digits1 (stripSign s.data)

/-- Acceptance of a string by the Python `float` constructor: optional
sign, then digits with an optional fraction and exponent. -/
def pyFloatOk (s : String) : Bool :=
  floatBody (stripSign s.data)

/-- Acceptance by the Python `str` constructor, which always succeeds on
a string input. -/
def pyStrOk (_s : String) : Bool :=
  true

/-- The kind of value produced by a successful cast. -/
inductive VarKind where
  | vfloat : VarKind
  | vint : VarKind
  | vstr : VarKind
deriving DecidableEq, Repr

/-- `QuestDB._assign_vartype` (questdb.py lines 223 to 237): the loop
`for t in [float, int, str]` returns the first cast that succeeds; when
every cast fails the Python function falls off the loop and implicitly
returns None, embedded as `none`. -/
def assignVartype (s : String) : Option VarKind :=
  if pyFloatOk s then some .vfloat
  else if pyIntOk s then some .vint
  else if pyStrOk s then some .vstr
  else none

/-- The cell casting of one row of the pandas-format export (questdb.py
lines 213 to 218): `_assign_vartype` is mapped over the (quote- and
space-stripped) cells of the row. -/
def castCells (cells : List String) : List (Option VarKind) :=
  cells.map assignVartype

theorem takeWhile_all_digits {l : List Char} (h : l.all Char.isDigit = true) :
    l.takeWhile Char.isDigit = l :=
  List.takeWhile_eq_self_iff.mpr (List.all_eq_true.mp h)

theorem digits1_floatBody {l : List Char} (h : digits1 l = true) :
    floatBody l = true := by
  have hall : l.all Char.isDigit = true := by
    simp only [digits1, Bool.and_eq_true] at h
    exact h.2
  have hne : l.isEmpty = false := by
    simp only [digits1, Bool.and_eq_true, Bool.not_eq_true'] at h
    exact h.1
  have ht : l.takeWhile Char.isDigit = l := takeWhile_all_digits hall
  unfold floatBody
  rw [ht, List.drop_length]
  simp [floatTail, hne]

theorem pyIntOk_pyFloatOk (s : String) (h : pyIntOk s = true) :
    pyFloatOk s = true :=
  digits1_floatBody h

/-- C10: `_assign_vartype` tries float before int, so every string the
int constructor accepts is returned as the float cast and the int branch
is unreachable; since `str` of a string always succeeds, the function
never falls through to None; consequently numeric cells of a
pandas-format export row are always cast as floats, never ints, and no
cell is left uncast. -/
theorem assign_vartype_float_first (s : String) (cells : List String) :
    (pyIntOk s = true → assignVartype s = some .vfloat) ∧
    assignVartype s ≠ none ∧
    assignVartype s ≠ some .vint ∧
    (∀ r ∈ castCells cells, r ≠ none ∧ r ≠ some .vint) := by
  have hmain : ∀ u : String,
      assignVartype u ≠ none ∧ assignVartype u ≠ some .vint := by
    intro u
    by_cases hf : pyFloatOk u = true
    · simp [assignVartype, hf]
    · by_cases hi : pyIntOk u = true
      · exact absurd (pyIntOk_pyFloatOk u hi) hf
      · simp [assignVartype, hf, hi, pyStrOk]
  refine ⟨?_, (hmain s).1, (hmain s).2, ?_⟩
  · intro hi
    simp [assignVartype, pyIntOk_pyFloatOk s hi]
  · intro r hr
    simp only [castCells, List.mem_map] at hr
    obtain ⟨u, hu, rfl⟩ := hr
    exact hmain u

/-- C10 witness: the digit string 42 is accepted by the int constructor
and comes back as the float cast. -/
theorem assign_vartype_float_first_witness :
    pyIntOk "42" = true ∧ assignVartype "42" = some .vfloat :=
  ⟨by decide, (assign_vartype_float_first "42" []).1 (by decide)⟩

end EjtraderDB
